import Mathlib

/-!
# Cache-aside user service: `GetUser` / `CreateUser`

A shallow embedding of the gRPC user service of `grpc-redis-postgres`:

* `cmd/server/server.go` : the handlers `userService.GetUser` and `userService.CreateUser`
  (the "User Access Coordinator");
* `pkg/db/db.go`         : `databaseClient.GetUser` and `databaseClient.CreateUser`
  (the "Durable Store Adapter");
* `pkg/redis/redis.go`   : the cache client.

Adapter calls are effectful in Go.  Here every adapter call is a function
`σ → result × σ` on an explicit backend state `σ`, and the handlers thread that
state through the calls in source order, recording each adapter call in a trace.
The `context.Context` argument (deadlines, cancellation) is not modelled.
-/

set_option autoImplicit false

/-! ## Messages and status codes -/

namespace proto

/-- The `proto.User` message: the three fields the source reads and writes. -/
structure User where
  Id : String
  Name : String
  Email : String
deriving DecidableEq, Repr

/-- The `proto.GetUserRequest` message (`req.Id`). -/
structure GetUserRequest where
  Id : String
deriving DecidableEq, Repr

/-- The `proto.CreateUserRequest` message (`user.Name`, `user.Email`). -/
structure CreateUserRequest where
  Name : String
  Email : String
deriving DecidableEq, Repr

end proto

namespace codes

/-- The gRPC status codes (`google.golang.org/grpc/codes`) relevant to the service. -/
inductive Code where
  | OK
  | InvalidArgument
  | NotFound
  | Internal
deriving DecidableEq, Repr

end codes

namespace status

/-- A gRPC status error as built by `status.Errorf(code, format, args...)`:
the code and the formatted message. -/
structure Status where
  code : codes.Code
  message : String
deriving DecidableEq, Repr

end status

/-! ## The SQL backend seen through `database/sql` -/

namespace sql

/-- Errors returned by `QueryRowContext(...).Scan(...)`: the sentinel `sql.ErrNoRows`,
or any other failure (connection loss, timeout, constraint violation, ...) with its text. -/
inductive Error where
  | ErrNoRows
  | driver (msg : String)
deriving DecidableEq, Repr

/-- The `Error()` text of a `database/sql` error. -/
def Error.text : Error → String
  | .ErrNoRows => "sql: no rows in result set"
  | .driver msg => msg

/-- State of the relational backend behind `*sql.DB`.

* `users`     : the rows of table `users (id, name, email)`;
* `fault`     : `some e` when the backend is failing, so that every query returns the
  driver error `e`; `none` when it is healthy;
* `seq`, `idDefault` : the table's identity generator (the column default evaluated by
  `INSERT ... RETURNING id`); the schema is not part of the repository, so the
  generator is left arbitrary. -/
structure DB where
  users : List proto.User
  fault : Option String
  seq : Nat
  idDefault : Nat → String

/-- The query `SELECT id, name, email FROM users WHERE id = $1` followed by `Scan`. -/
def DB.selectUser (d : DB) (id : String) : Except Error proto.User :=
  match d.fault with
  | some e => .error (.driver e)
  | none =>
    match d.users.find? (fun u => u.Id == id) with
    | some u => .ok u
    | none => .error .ErrNoRows

/-- The query `INSERT INTO users (name, email) VALUES ($1, $2) RETURNING id` followed by
`Scan(&userID)`: on a healthy backend the row is appended under the generated identity. -/
def DB.insertUser (d : DB) (name email : String) : Except Error String × DB :=
  match d.fault with
  | some e => (.error (.driver e), d)
  | none =>
    let id := d.idDefault d.seq
    (.ok id, { d with users := d.users ++ [⟨id, name, email⟩], seq := d.seq + 1 })

end sql

/-! ## `pkg/db/db.go` -/

namespace db

/-- The `DatabaseClient` interface; a Go `error` is represented by its `Error()` text. -/
structure DatabaseClient (σ : Type) where
  GetUser : String → σ → Except String proto.User × σ
  CreateUser : proto.CreateUserRequest → σ → Except String proto.User × σ

/-- The method `(*databaseClient).GetUser`: retrieves a user from the database. -/
def databaseClient.GetUser (id : String) (c : sql.DB) : Except String proto.User × sql.DB :=
  match c.selectUser id with
  | .error err =>
    if err = sql.Error.ErrNoRows then
      (.error ("user with ID " ++ id ++ " not found"), c)
    else
      (.error ("error retrieving user: " ++ err.text), c)
  | .ok user => (.ok user, c)

/-- The method `(*databaseClient).CreateUser`: creates a new user in the database. -/
def databaseClient.CreateUser (user : proto.CreateUserRequest) (c : sql.DB) :
    Except String proto.User × sql.DB :=
  match c.insertUser user.Name user.Email with
  | (.error err, c1) => (.error ("error creating user: " ++ err.text), c1)
  | (.ok userID, c1) => (.ok { Id := userID, Name := user.Name, Email := user.Email }, c1)

end db

/-! ## `pkg/redis/redis.go` -/

namespace redis

/-- The cache client as `userService` consumes it: `GetUser(ctx, id)` returning
`(*proto.User, error)` and `SetUser(ctx, user)` returning `error` (`none` is `nil`). -/
structure RedisClient (σ : Type) where
  GetUser : String → σ → Except String proto.User × σ
  SetUser : proto.User → σ → Option String × σ

/-- State of the key-value backend: the cached user entries keyed by identity, and the
health of the read and of the write path (`some e`: the call fails with error `e`). -/
structure Cache where
  entries : List (String × proto.User)
  getFault : Option String
  setFault : Option String
deriving DecidableEq, Repr

/-- Modelled from the spec: the cache adapter method `GetUser`, which `server.go` calls
but `redis.go` does not define (it only has string-level `Get`/`Set`).  Spec §4.3:
`Get(identity) -> Record | MissError | TransientError`. -/
def redisClient.GetUser (id : String) (r : Cache) : Except String proto.User × Cache :=
  match r.getFault with
  | some e => (.error e, r)
  | none =>
    match r.entries.lookup id with
    | some u => (.ok u, r)
    | none => (.error "redis: nil", r)

/-- Modelled from the spec: the cache adapter method `SetUser`, which `server.go` calls
but `redis.go` does not define.  Spec §4.3: `Set(record, ttl?) -> Success | TransientError`,
a point set keyed by identity; expiry is the backend's concern and is not modelled. -/
def redisClient.SetUser (u : proto.User) (r : Cache) : Option String × Cache :=
  match r.setFault with
  | some e => (some e, r)
  | none =>
    (none, { r with entries := (u.Id, u) :: r.entries.filter (fun kv => kv.1 != u.Id) })

end redis

/-! ## `cmd/server/server.go` -/

/-- One call made by a handler to one of its two adapters. -/
inductive Call where
  | cacheGet (id : String)
  | cacheSet (u : proto.User)
  | dbGet (id : String)
  | dbCreate (req : proto.CreateUserRequest)
deriving DecidableEq, Repr

/-- Calls to the durable-store adapter. -/
def Call.isStore : Call → Bool
  | .dbGet _ => true
  | .dbCreate _ => true
  | _ => false

/-- Calls that write to the durable store. -/
def Call.isStoreWrite : Call → Bool
  | .dbCreate _ => true
  | _ => false

/-- Calls that write to the cache. -/
def Call.isCacheSet : Call → Bool
  | .cacheSet _ => true
  | _ => false

/-- What one handler invocation produces: the `(*proto.User, error)` result, the backend
state afterwards, the adapter calls made (in order) and the lines written with
`log.Printf`. -/
structure Run (σ : Type) where
  result : Except status.Status proto.User
  state : σ
  calls : List Call
  log : List String

/-- The `userService` struct: the two injected clients. -/
structure userService (σ : Type) where
  redisClient : redis.RedisClient σ
  dbClient : db.DatabaseClient σ

/-- The handler `(*userService).GetUser`: retrieves a user from Redis or PostgreSQL. -/
def userService.GetUser {σ : Type} (s : userService σ) (req : proto.GetUserRequest)
    (w : σ) : Run σ :=
  -- 1. Try to retrieve user from Redis
  match s.redisClient.GetUser req.Id w with
  | (.ok user, w1) => ⟨.ok user, w1, [.cacheGet req.Id], []⟩
  | (.error _, w1) =>
    -- 2. If not found in Redis, retrieve from PostgreSQL
    match s.dbClient.GetUser req.Id w1 with
    | (.error _, w2) =>
      ⟨.error ⟨.NotFound, "user with ID " ++ req.Id ++ " not found"⟩, w2,
        [.cacheGet req.Id, .dbGet req.Id], []⟩
    | (.ok user, w2) =>
      -- 3. Cache user in Redis
      match s.redisClient.SetUser user w2 with
      | (some err, w3) =>
        -- Error caching, but still return user
        ⟨.ok user, w3, [.cacheGet req.Id, .dbGet req.Id, .cacheSet user],
          ["Error caching user in Redis: " ++ err]⟩
      | (none, w3) =>
        ⟨.ok user, w3, [.cacheGet req.Id, .dbGet req.Id, .cacheSet user], []⟩

/-- The handler `(*userService).CreateUser`: creates a new user and stores it in Redis
and PostgreSQL. -/
def userService.CreateUser {σ : Type} (s : userService σ) (req : proto.CreateUserRequest)
    (w : σ) : Run σ :=
  -- 1. Create user in PostgreSQL
  match s.dbClient.CreateUser req w with
  | (.error err, w1) =>
    ⟨.error ⟨.Internal, "error creating user: " ++ err⟩, w1, [.dbCreate req], []⟩
  | (.ok user, w1) =>
    -- 2. Cache user in Redis
    match s.redisClient.SetUser user w1 with
    | (some err, w2) =>
      ⟨.error ⟨.Internal, "error caching user in Redis: " ++ err⟩, w2,
        [.dbCreate req, .cacheSet user], []⟩
    | (none, w2) => ⟨.ok user, w2, [.dbCreate req, .cacheSet user], []⟩

/-! ## The service as wired in `main` -/

/-- The two backends the process talks to. -/
structure World where
  db : sql.DB
  redis : redis.Cache

/-- The `dbClient` of `main`: `databaseClient` acting on the SQL backend of the world. -/
def World.dbClient : db.DatabaseClient World where
  GetUser := fun id w =>
    let p := db.databaseClient.GetUser id w.db
    (p.1, { w with db := p.2 })
  CreateUser := fun req w =>
    let p := db.databaseClient.CreateUser req w.db
    (p.1, { w with db := p.2 })

/-- The `redisClient` of `main`: the cache adapter acting on the key-value backend. -/
def World.redisClient : redis.RedisClient World where
  GetUser := fun id w =>
    let p := redis.redisClient.GetUser id w.redis
    (p.1, { w with redis := p.2 })
  SetUser := fun u w =>
    let p := redis.redisClient.SetUser u w.redis
    (p.1, { w with redis := p.2 })

/-- The service registered by `main`: `userService` over the two concrete clients. -/
def server : userService World where
  redisClient := World.redisClient
  dbClient := World.dbClient

/-! ## Sample backends -/

/-- A healthy world: one stored user `u1`, an empty cache, next identity `u2`. -/
def coldWorld : World where
  db := { users := [⟨"u1", "A", "a@x.com"⟩], fault := none, seq := 1,
          idDefault := fun _ => "u2" }
  redis := { entries := [], getFault := none, setFault := none }

/-- A world whose cache holds a record for `u1` that the store does not have. -/
def warmWorld : World where
  db := { users := [], fault := none, seq := 0, idDefault := fun _ => "u1" }
  redis := { entries := [("u1", ⟨"u1", "A", "a@x.com"⟩)], getFault := none,
             setFault := none }

/-- A world whose cache is unreachable for reads and writes, the store being healthy. -/
def cacheDownWorld : World where
  db := { users := [⟨"u1", "A", "a@x.com"⟩], fault := none, seq := 1,
          idDefault := fun _ => "u2" }
  redis := { entries := [], getFault := some "dial tcp: connection refused",
             setFault := some "dial tcp: connection refused" }

/-- A world whose store is failing (every query returns a driver error), cache empty. -/
def dbDownWorld : World where
  db := { users := [⟨"42", "A", "a@x.com"⟩], fault := some "connection refused", seq := 1,
          idDefault := fun _ => "43" }
  redis := { entries := [], getFault := none, setFault := none }

/-! ## The three paths of `GetUser`, for arbitrary adapters -/

/-- Hit path: a successful cache lookup ends the handler at once. -/
theorem GetUser_of_hit {σ : Type} (s : userService σ) (id : String) (r : proto.User)
    (w w1 : σ) (hit : s.redisClient.GetUser id w = (.ok r, w1)) :
    s.GetUser ⟨id⟩ w = ⟨.ok r, w1, [.cacheGet id], []⟩ := by
  simp [userService.GetUser, hit]

/-- Fallback path: a failed cache lookup followed by a successful store lookup. -/
theorem GetUser_of_miss_found {σ : Type} (s : userService σ) (id : String)
    (r : proto.User) (e : String) (w w1 w2 : σ)
    (miss : s.redisClient.GetUser id w = (.error e, w1))
    (found : s.dbClient.GetUser id w1 = (.ok r, w2)) :
    (s.GetUser ⟨id⟩ w).result = .ok r ∧
    (s.GetUser ⟨id⟩ w).calls = [.cacheGet id, .dbGet id, .cacheSet r] ∧
    (s.GetUser ⟨id⟩ w).state = (s.redisClient.SetUser r w2).2 := by
  simp only [userService.GetUser, miss, found]
  split <;> simp_all

/-- Failure path: both lookups fail. -/
theorem GetUser_of_miss_gone {σ : Type} (s : userService σ) (id : String)
    (e e2 : String) (w w1 w2 : σ)
    (miss : s.redisClient.GetUser id w = (.error e, w1))
    (gone : s.dbClient.GetUser id w1 = (.error e2, w2)) :
    s.GetUser ⟨id⟩ w =
      ⟨.error ⟨.NotFound, "user with ID " ++ id ++ " not found"⟩, w2,
        [.cacheGet id, .dbGet id], []⟩ := by
  simp [userService.GetUser, miss, gone]

/-! ## The concrete adapters -/

/-- The cache lookup of the modelled backend fails exactly when the read path is down
or the identity has no entry. -/
theorem redis_GetUser_error_iff (id : String) (c : redis.Cache) :
    (∃ e, (redis.redisClient.GetUser id c).1 = .error e) ↔
      ((∃ e, c.getFault = some e) ∨ (c.getFault = none ∧ c.entries.lookup id = none)) := by
  unfold redis.redisClient.GetUser
  cases hf : c.getFault with
  | some e => simp
  | none => cases hl : c.entries.lookup id <;> simp

/-- A cache lookup never changes the key-value backend. -/
theorem redis_GetUser_state (id : String) (c : redis.Cache) :
    (redis.redisClient.GetUser id c).2 = c := by
  unfold redis.redisClient.GetUser
  cases c.getFault with
  | some e => rfl
  | none => cases c.entries.lookup id <;> rfl

/-- A store lookup never changes the SQL backend. -/
theorem db_GetUser_state (id : String) (c : sql.DB) :
    (db.databaseClient.GetUser id c).2 = c := by
  unfold db.databaseClient.GetUser
  cases c.selectUser id with
  | ok u => rfl
  | error err => dsimp only; split <;> rfl

/-- On a healthy backend holding a row for `id`, the store lookup returns that row. -/
theorem db_GetUser_present (id : String) (c : sql.DB) (r : proto.User)
    (healthy : c.fault = none) (present : c.users.find? (fun u => u.Id == id) = some r) :
    db.databaseClient.GetUser id c = (.ok r, c) := by
  simp [db.databaseClient.GetUser, sql.DB.selectUser, healthy, present]

/-- When no row matches `id`, the store lookup fails, whatever the backend's health. -/
theorem db_GetUser_absent (id : String) (c : sql.DB)
    (absent : c.users.find? (fun u => u.Id == id) = none) :
    ∃ e, db.databaseClient.GetUser id c = (.error e, c) := by
  unfold db.databaseClient.GetUser sql.DB.selectUser
  cases c.fault with
  | some e => exact ⟨"error retrieving user: " ++ e, by simp [sql.Error.text]⟩
  | none => exact ⟨"user with ID " ++ id ++ " not found", by simp [absent]⟩

/-- A record returned by the store lookup carries the identity that was asked for. -/
theorem db_GetUser_ok_id (id : String) (c : sql.DB) (r : proto.User)
    (h : (db.databaseClient.GetUser id c).1 = .ok r) : r.Id = id := by
  unfold db.databaseClient.GetUser sql.DB.selectUser at h
  cases hf : c.fault with
  | some e => simp [hf] at h
  | none =>
    cases hu : c.users.find? (fun u => u.Id == id) with
    | none => simp [hf, hu] at h
    | some u =>
      simp [hf, hu] at h
      subst h
      simpa using List.find?_some hu

/-- The wired cache lookup returns the adapter's answer and leaves the world as it was. -/
theorem server_cacheGet (id : String) (w : World) :
    server.redisClient.GetUser id w = ((redis.redisClient.GetUser id w.redis).1, w) := by
  simp [server, World.redisClient, redis_GetUser_state]

/-- The wired store lookup returns the adapter's answer and leaves the world as it was. -/
theorem server_dbGet (id : String) (w : World) :
    server.dbClient.GetUser id w = ((db.databaseClient.GetUser id w.db).1, w) := by
  simp [server, World.dbClient, db_GetUser_state]

/-- The wired cache write only acts on the key-value backend. -/
theorem server_cacheSet (u : proto.User) (w : World) :
    server.redisClient.SetUser u w =
      ((redis.redisClient.SetUser u w.redis).1,
        { w with redis := (redis.redisClient.SetUser u w.redis).2 }) := by
  simp [server, World.redisClient]

/-- The wired store insert only acts on the SQL backend. -/
theorem server_dbCreate (req : proto.CreateUserRequest) (w : World) :
    server.dbClient.CreateUser req w =
      ((db.databaseClient.CreateUser req w.db).1,
        { w with db := (db.databaseClient.CreateUser req w.db).2 }) := by
  simp [server, World.dbClient]

/-! ## Properties of `GetUser` -/

/-- C1 (cache hit short-circuits).  For every service, identity and backend state in
which the cache lookup for the identity succeeds with record `r`, `GetUser` returns `r`
with no error, and its only adapter call is that cache lookup: no durable-store call
(neither Get nor Create) and no cache write, whatever the store holds. -/
theorem GetUser_cache_hit {σ : Type} (s : userService σ) (id : String) (r : proto.User)
    (w w1 : σ) (hit : s.redisClient.GetUser id w = (.ok r, w1)) :
    (s.GetUser ⟨id⟩ w).result = .ok r ∧
    (s.GetUser ⟨id⟩ w).calls = [.cacheGet id] ∧
    (s.GetUser ⟨id⟩ w).calls.countP Call.isStore = 0 ∧
    (s.GetUser ⟨id⟩ w).calls.countP Call.isCacheSet = 0 ∧
    (s.GetUser ⟨id⟩ w).state = w1 := by
  simp [GetUser_of_hit s id r w w1 hit, Call.isStore, Call.isCacheSet]

/-- Witness for C1: the cached record of `u1` is served although the store has no such row. -/
theorem GetUser_cache_hit_witness :
    (server.GetUser ⟨"u1"⟩ warmWorld).result = .ok ⟨"u1", "A", "a@x.com"⟩ ∧
    warmWorld.db.users = [] :=
  ⟨(GetUser_cache_hit server "u1" ⟨"u1", "A", "a@x.com"⟩ warmWorld warmWorld rfl).1, rfl⟩

/-- C2 (fallback on miss).  For every service, identity and backend state in which the
cache lookup fails and the durable-store lookup succeeds with record `r`, `GetUser`
returns `r` with no error; its adapter calls are the cache lookup, one store Get and one
cache-set attempt for `r` itself, and it makes no store write. -/
theorem GetUser_fallback_on_miss {σ : Type} (s : userService σ) (id : String)
    (r : proto.User) (e : String) (w w1 w2 : σ)
    (miss : s.redisClient.GetUser id w = (.error e, w1))
    (found : s.dbClient.GetUser id w1 = (.ok r, w2)) :
    (s.GetUser ⟨id⟩ w).result = .ok r ∧
    (s.GetUser ⟨id⟩ w).calls = [.cacheGet id, .dbGet id, .cacheSet r] ∧
    (s.GetUser ⟨id⟩ w).calls.count (.dbGet id) = 1 ∧
    (s.GetUser ⟨id⟩ w).calls.countP Call.isStore = 1 ∧
    (s.GetUser ⟨id⟩ w).calls.count (.cacheSet r) = 1 ∧
    (s.GetUser ⟨id⟩ w).calls.countP Call.isCacheSet = 1 ∧
    (s.GetUser ⟨id⟩ w).calls.countP Call.isStoreWrite = 0 ∧
    (s.GetUser ⟨id⟩ w).state = (s.redisClient.SetUser r w2).2 := by
  obtain ⟨hres, hcalls, hst⟩ := GetUser_of_miss_found s id r e w w1 w2 miss found
  refine ⟨hres, hcalls, ?_, ?_, ?_, ?_, ?_, hst⟩ <;> rw [hcalls] <;>
    simp [Call.isStore, Call.isCacheSet, Call.isStoreWrite, List.count_cons]

/-- Witness for C2: `u1` is absent from the cold cache and present in the store. -/
theorem GetUser_fallback_on_miss_witness :
    (server.GetUser ⟨"u1"⟩ coldWorld).result = .ok ⟨"u1", "A", "a@x.com"⟩ ∧
    (server.GetUser ⟨"u1"⟩ coldWorld).state.redis.entries =
      [("u1", ⟨"u1", "A", "a@x.com"⟩)] :=
  ⟨(GetUser_fallback_on_miss server "u1" ⟨"u1", "A", "a@x.com"⟩ "redis: nil"
      coldWorld coldWorld coldWorld rfl rfl).1, rfl⟩

/-- C3 (cache errors never fail a read).  For every identity present in a healthy
durable store, for either kind of cache-lookup error (a genuine miss, or a failing
backend with any error `e`) and for every outcome of the following cache-set (the write
path's health is unconstrained), `GetUser` returns the store's record with no error; the
result and the sequence of adapter calls are the same in all these cases, and the store
is left as it was. -/
theorem GetUser_cache_errors_never_fail_read (w : World) (id : String) (r : proto.User)
    (healthy : w.db.fault = none)
    (present : w.db.users.find? (fun u => u.Id == id) = some r)
    (cacheError : (∃ e, w.redis.getFault = some e) ∨
      (w.redis.getFault = none ∧ w.redis.entries.lookup id = none)) :
    (server.GetUser ⟨id⟩ w).result = .ok r ∧
    (server.GetUser ⟨id⟩ w).calls = [.cacheGet id, .dbGet id, .cacheSet r] ∧
    (server.GetUser ⟨id⟩ w).state.db = w.db := by
  obtain ⟨e, he⟩ := (redis_GetUser_error_iff id w.redis).mpr cacheError
  have miss : server.redisClient.GetUser id w = (.error e, w) := by
    rw [server_cacheGet, he]
  have found : server.dbClient.GetUser id w = (.ok r, w) := by
    rw [server_dbGet, db_GetUser_present id w.db r healthy present]
  obtain ⟨h1, h2, h3⟩ := GetUser_of_miss_found server id r e w w w miss found
  refine ⟨h1, h2, ?_⟩
  rw [h3, server_cacheSet]

/-- Witness for C3: with the cache unreachable for reads and writes, `u1` is still
served from the store. -/
theorem GetUser_cache_errors_never_fail_read_witness :
    (server.GetUser ⟨"u1"⟩ cacheDownWorld).result = .ok ⟨"u1", "A", "a@x.com"⟩ ∧
    (server.GetUser ⟨"u1"⟩ cacheDownWorld).log =
      ["Error caching user in Redis: dial tcp: connection refused"] :=
  ⟨(GetUser_cache_errors_never_fail_read cacheDownWorld "u1" ⟨"u1", "A", "a@x.com"⟩ rfl rfl
      (Or.inl ⟨_, rfl⟩)).1, rfl⟩

/-- C4 (not found).  For every identity that has no cache entry and no row in the
durable store, `GetUser` returns no record and an error with code `NotFound` whose
message carries the requested identity; the only adapter calls are the two lookups (no
cache-set attempt, no store write) and both backends are left exactly as they were. -/
theorem GetUser_not_found (w : World) (id : String)
    (notCached : w.redis.entries.lookup id = none)
    (notStored : w.db.users.find? (fun u => u.Id == id) = none) :
    (server.GetUser ⟨id⟩ w).result =
      .error ⟨.NotFound, "user with ID " ++ id ++ " not found"⟩ ∧
    (server.GetUser ⟨id⟩ w).calls = [.cacheGet id, .dbGet id] ∧
    (server.GetUser ⟨id⟩ w).calls.countP Call.isCacheSet = 0 ∧
    (server.GetUser ⟨id⟩ w).calls.countP Call.isStoreWrite = 0 ∧
    (server.GetUser ⟨id⟩ w).state = w := by
  have hc : ∃ e, (redis.redisClient.GetUser id w.redis).1 = .error e := by
    rw [redis_GetUser_error_iff]
    cases hf : w.redis.getFault with
    | some e => exact Or.inl ⟨e, rfl⟩
    | none => exact Or.inr ⟨rfl, notCached⟩
  obtain ⟨e, he⟩ := hc
  obtain ⟨e2, he2⟩ := db_GetUser_absent id w.db notStored
  have miss : server.redisClient.GetUser id w = (.error e, w) := by
    rw [server_cacheGet, he]
  have gone : server.dbClient.GetUser id w = (.error e2, w) := by
    rw [server_dbGet, he2]
  simp [GetUser_of_miss_gone server id e e2 w w w miss gone, Call.isCacheSet,
    Call.isStoreWrite]

/-- Witness for C4: `u9` is in neither backend of the cold world. -/
theorem GetUser_not_found_witness :
    (server.GetUser ⟨"u9"⟩ coldWorld).result =
      .error ⟨.NotFound, "user with ID u9 not found"⟩ :=
  (GetUser_not_found coldWorld "u9" rfl rfl).1

/-- C8 (store failure reported as `NotFound`).  On the world whose store is failing, the
store lookup for `42` fails with a backend error, not with "no matching record" (the row
for `42` even exists), yet `GetUser` answers `NotFound`, not `Internal`. -/
theorem GetUser_store_failure_is_NotFound :
    dbDownWorld.redis.entries.lookup "42" = none ∧
    dbDownWorld.db.selectUser "42" = .error (.driver "connection refused") ∧
    (db.databaseClient.GetUser "42" dbDownWorld.db).1 =
      .error "error retrieving user: connection refused" ∧
    (server.GetUser ⟨"42"⟩ dbDownWorld).result =
      .error ⟨.NotFound, "user with ID 42 not found"⟩ ∧
    (∀ m : String, (server.GetUser ⟨"42"⟩ dbDownWorld).result ≠ .error ⟨.Internal, m⟩) :=
  ⟨rfl, rfl, rfl, rfl, fun m => by
    simp [show (server.GetUser ⟨"42"⟩ dbDownWorld).result =
      .error ⟨.NotFound, "user with ID 42 not found"⟩ from rfl]⟩

/-- After a cache write the read path's health is what it was. -/
theorem redis_SetUser_getFault (u : proto.User) (c : redis.Cache) :
    (redis.redisClient.SetUser u c).2.getFault = c.getFault := by
  unfold redis.redisClient.SetUser
  cases c.setFault <;> rfl

/-- After a cache write for `u`, a successful lookup of `u.Id` can only return `u`:
either the write went through, or the lookup answers as it did before. -/
theorem redis_GetUser_after_SetUser (u c1 : proto.User) (c : redis.Cache) (e : String)
    (before : (redis.redisClient.GetUser u.Id c).1 = .error e)
    (after : (redis.redisClient.GetUser u.Id (redis.redisClient.SetUser u c).2).1 = .ok c1) :
    c1 = u := by
  unfold redis.redisClient.SetUser at after
  cases hs : c.setFault with
  | some e1 =>
    simp only [hs] at after
    rw [before] at after
    cases after
  | none =>
    simp only [hs] at after
    unfold redis.redisClient.GetUser at after
    cases hg : c.getFault with
    | some e1 => simp [hg] at after
    | none =>
      simp [hg, List.lookup_cons] at after
      exact after.symm

/-- C9 (Fetch is idempotent).  For every identity and every state of the two backends
(contents and health, which only the handler's own calls may change between the two
requests), a second `GetUser` issued on the state left by the first returns the same
result: the same record, or the same `NotFound` error. -/
theorem GetUser_idempotent (w : World) (id : String) :
    (server.GetUser ⟨id⟩ (server.GetUser ⟨id⟩ w).state).result =
      (server.GetUser ⟨id⟩ w).result := by
  cases h1 : (redis.redisClient.GetUser id w.redis).1 with
  | ok c =>
    have hit : server.redisClient.GetUser id w = (.ok c, w) := by rw [server_cacheGet, h1]
    rw [GetUser_of_hit server id c w w hit]
    simp only
    rw [GetUser_of_hit server id c w w hit]
  | error e =>
    have miss : server.redisClient.GetUser id w = (.error e, w) := by
      rw [server_cacheGet, h1]
    cases h2 : (db.databaseClient.GetUser id w.db).1 with
    | error e2 =>
      have gone : server.dbClient.GetUser id w = (.error e2, w) := by rw [server_dbGet, h2]
      rw [GetUser_of_miss_gone server id e e2 w w w miss gone]
      simp only
      rw [GetUser_of_miss_gone server id e e2 w w w miss gone]
    | ok r =>
      have found : server.dbClient.GetUser id w = (.ok r, w) := by rw [server_dbGet, h2]
      have hid : r.Id = id := db_GetUser_ok_id id w.db r h2
      obtain ⟨hres, -, hst⟩ := GetUser_of_miss_found server id r e w w w miss found
      rw [hres, hst, server_cacheSet]
      generalize hw3 : ({ w with redis := (redis.redisClient.SetUser r w.redis).2 } : World)
        = w3
      have hdb : w3.db = w.db := by rw [← hw3]
      have hrd : w3.redis = (redis.redisClient.SetUser r w.redis).2 := by rw [← hw3]
      have found3 : server.dbClient.GetUser id w3 = (.ok r, w3) := by
        rw [server_dbGet, hdb, h2]
      cases h3 : (redis.redisClient.GetUser id w3.redis).1 with
      | error e3 =>
        have miss3 : server.redisClient.GetUser id w3 = (.error e3, w3) := by
          rw [server_cacheGet, h3]
        exact (GetUser_of_miss_found server id r e3 w3 w3 w3 miss3 found3).1
      | ok c3 =>
        have hit3 : server.redisClient.GetUser id w3 = (.ok c3, w3) := by
          rw [server_cacheGet, h3]
        rw [GetUser_of_hit server id c3 w3 w3 hit3]
        simp only
        rw [hrd, ← hid] at h3
        rw [← hid] at h1
        rw [redis_GetUser_after_SetUser r c3 w.redis e h1 h3]

/-! ## Properties of `CreateUser` -/

/-- On a healthy backend the insert appends the new row under the generated identity. -/
theorem db_CreateUser_healthy (req : proto.CreateUserRequest) (c : sql.DB)
    (healthy : c.fault = none) :
    db.databaseClient.CreateUser req c =
      (.ok ⟨c.idDefault c.seq, req.Name, req.Email⟩,
        { c with users := c.users ++ [⟨c.idDefault c.seq, req.Name, req.Email⟩],
                 seq := c.seq + 1 }) := by
  simp [db.databaseClient.CreateUser, sql.DB.insertUser, healthy]

/-- C5 (create durability on cache failure).  For every name and email, if the store is
healthy (so the insert succeeds) and the cache write path fails with error `e`,
`CreateUser` returns no record and an error with code `Internal`; the durable store
nevertheless holds the newly inserted row (all earlier rows plus the new one), exactly
one cache-set attempt was made, for that row, and the cache is as it was. -/
theorem CreateUser_durable_on_cache_failure (w : World) (req : proto.CreateUserRequest)
    (e : String) (insertOk : w.db.fault = none) (setFails : w.redis.setFault = some e) :
    (server.CreateUser req w).result =
      .error ⟨.Internal, "error caching user in Redis: " ++ e⟩ ∧
    (server.CreateUser req w).state.db.users =
      w.db.users ++ [⟨w.db.idDefault w.db.seq, req.Name, req.Email⟩] ∧
    (⟨w.db.idDefault w.db.seq, req.Name, req.Email⟩ : proto.User) ∈
      (server.CreateUser req w).state.db.users ∧
    (server.CreateUser req w).calls =
      [.dbCreate req, .cacheSet ⟨w.db.idDefault w.db.seq, req.Name, req.Email⟩] ∧
    (server.CreateUser req w).calls.countP Call.isCacheSet = 1 ∧
    (server.CreateUser req w).state.redis = w.redis := by
  simp [userService.CreateUser, server_dbCreate, server_cacheSet,
    db_CreateUser_healthy req w.db insertOk, redis.redisClient.SetUser, setFails,
    Call.isCacheSet]

/-- Witness for C5: creating `A` while the cache is unreachable fails with `Internal`
and leaves the new row `u2` in the store. -/
theorem CreateUser_durable_on_cache_failure_witness :
    (server.CreateUser ⟨"A", "a@x.com"⟩ cacheDownWorld).result =
      .error ⟨.Internal, "error caching user in Redis: dial tcp: connection refused"⟩ ∧
    (server.CreateUser ⟨"A", "a@x.com"⟩ cacheDownWorld).state.db.users =
      [⟨"u1", "A", "a@x.com"⟩, ⟨"u2", "A", "a@x.com"⟩] :=
  ⟨(CreateUser_durable_on_cache_failure cacheDownWorld ⟨"A", "a@x.com"⟩
      "dial tcp: connection refused" rfl rfl).1,
   (CreateUser_durable_on_cache_failure cacheDownWorld ⟨"A", "a@x.com"⟩
      "dial tcp: connection refused" rfl rfl).2.1⟩

/-- C6 (no cache access when the insert fails).  For every service, name and email, if
the durable-store insert fails with error `e`, `CreateUser` returns no record and an
error with code `Internal`; the insert is its only adapter call, so there is no
cache-set attempt and the backends are as the failed insert left them. -/
theorem CreateUser_insert_failure {σ : Type} (s : userService σ)
    (req : proto.CreateUserRequest) (e : String) (w w1 : σ)
    (insertFails : s.dbClient.CreateUser req w = (.error e, w1)) :
    (s.CreateUser req w).result = .error ⟨.Internal, "error creating user: " ++ e⟩ ∧
    (s.CreateUser req w).calls = [.dbCreate req] ∧
    (s.CreateUser req w).calls.countP Call.isCacheSet = 0 ∧
    (s.CreateUser req w).state = w1 := by
  simp [userService.CreateUser, insertFails, Call.isCacheSet]

/-- Witness for C6: with the store failing, `CreateUser` fails with `Internal` and the
cache of the world is untouched. -/
theorem CreateUser_insert_failure_witness :
    (server.CreateUser ⟨"A", "a@x.com"⟩ dbDownWorld).result =
      .error ⟨.Internal, "error creating user: error creating user: connection refused"⟩ ∧
    (server.CreateUser ⟨"A", "a@x.com"⟩ dbDownWorld).state.redis = dbDownWorld.redis :=
  ⟨(CreateUser_insert_failure server ⟨"A", "a@x.com"⟩
      "error creating user: connection refused" dbDownWorld dbDownWorld rfl).1,
   congrArg World.redis (CreateUser_insert_failure server ⟨"A", "a@x.com"⟩
      "error creating user: connection refused" dbDownWorld dbDownWorld rfl).2.2.2⟩

/-- C7 (create-then-fetch consistency).  For every name and email, when the store is
healthy and the cache accepts the write, `CreateUser` returns the record made of the
identity assigned by the store (non-empty whenever the store's generator yields a
non-empty identity) and of the request's name and email; with the cache entry still
there and the cache readable, a `GetUser` on that identity issued right after returns
that same record, with the cache lookup as its only adapter call (no store call). -/
theorem CreateUser_then_GetUser (w : World) (req : proto.CreateUserRequest)
    (insertOk : w.db.fault = none) (setOk : w.redis.setFault = none)
    (getOk : w.redis.getFault = none) (idNonempty : w.db.idDefault w.db.seq ≠ "") :
    ∃ u : proto.User,
      (server.CreateUser req w).result = .ok u ∧
      u.Id = w.db.idDefault w.db.seq ∧ u.Id ≠ "" ∧
      u.Name = req.Name ∧ u.Email = req.Email ∧
      u ∈ (server.CreateUser req w).state.db.users ∧
      (server.GetUser ⟨u.Id⟩ (server.CreateUser req w).state).result = .ok u ∧
      (server.GetUser ⟨u.Id⟩ (server.CreateUser req w).state).calls = [.cacheGet u.Id] ∧
      (server.GetUser ⟨u.Id⟩ (server.CreateUser req w).state).calls.countP Call.isStore
        = 0 := by
  refine ⟨⟨w.db.idDefault w.db.seq, req.Name, req.Email⟩, ?_⟩
  have hcreate : server.CreateUser req w =
      ⟨.ok ⟨w.db.idDefault w.db.seq, req.Name, req.Email⟩,
        { db := { w.db with
                  users := w.db.users ++ [⟨w.db.idDefault w.db.seq, req.Name, req.Email⟩],
                  seq := w.db.seq + 1 },
          redis := { w.redis with
                  entries := (w.db.idDefault w.db.seq,
                      ⟨w.db.idDefault w.db.seq, req.Name, req.Email⟩) ::
                    w.redis.entries.filter (fun kv => kv.1 != w.db.idDefault w.db.seq) } },
        [.dbCreate req, .cacheSet ⟨w.db.idDefault w.db.seq, req.Name, req.Email⟩], []⟩ := by
    simp [userService.CreateUser, server_dbCreate, server_cacheSet,
      db_CreateUser_healthy req w.db insertOk, redis.redisClient.SetUser, setOk]
  have hit : server.redisClient.GetUser (w.db.idDefault w.db.seq)
      (server.CreateUser req w).state =
        (.ok ⟨w.db.idDefault w.db.seq, req.Name, req.Email⟩,
          (server.CreateUser req w).state) := by
    rw [server_cacheGet, hcreate]
    simp [redis.redisClient.GetUser, getOk, List.lookup_cons]
  rw [GetUser_of_hit server _ _ _ _ hit]
  refine ⟨?_, rfl, idNonempty, rfl, rfl, ?_, rfl, rfl, ?_⟩
  · rw [hcreate]
  · rw [hcreate]; simp
  · simp [Call.isStore]

/-- Witness for C7: `Create(name = "A", email = "a@x.com")` on the cold world yields
`u2`, and fetching `u2` right after is served from the cache. -/
theorem CreateUser_then_GetUser_witness :
    ∃ u : proto.User,
      (server.CreateUser ⟨"A", "a@x.com"⟩ coldWorld).result = .ok u ∧
      u.Id = "u2" ∧ u.Id ≠ "" ∧ u.Name = "A" ∧ u.Email = "a@x.com" ∧
      u ∈ (server.CreateUser ⟨"A", "a@x.com"⟩ coldWorld).state.db.users ∧
      (server.GetUser ⟨u.Id⟩ (server.CreateUser ⟨"A", "a@x.com"⟩ coldWorld).state).result
        = .ok u ∧
      (server.GetUser ⟨u.Id⟩ (server.CreateUser ⟨"A", "a@x.com"⟩ coldWorld).state).calls
        = [.cacheGet u.Id] ∧
      (server.GetUser ⟨u.Id⟩
        (server.CreateUser ⟨"A", "a@x.com"⟩ coldWorld).state).calls.countP Call.isStore
        = 0 :=
  CreateUser_then_GetUser coldWorld ⟨"A", "a@x.com"⟩ rfl rfl rfl (by decide)

/-- C10, as stated, fails: `CreateUser` with an empty name on the healthy cold world is
not rejected.  It calls the store insert and then the cache write, returns the new
record, and leaves a row and a cache entry with the empty name behind; hence it is not
true that every request with an empty name or email is rejected without an insert and
without a cache write. -/
theorem CreateUser_empty_name_not_rejected :
    (server.CreateUser ⟨"", "a@x.com"⟩ coldWorld).result = .ok ⟨"u2", "", "a@x.com"⟩ ∧
    (server.CreateUser ⟨"", "a@x.com"⟩ coldWorld).calls =
      [.dbCreate ⟨"", "a@x.com"⟩, .cacheSet ⟨"u2", "", "a@x.com"⟩] ∧
    (server.CreateUser ⟨"", "a@x.com"⟩ coldWorld).state.db.users =
      [⟨"u1", "A", "a@x.com"⟩, ⟨"u2", "", "a@x.com"⟩] ∧
    (server.CreateUser ⟨"", "a@x.com"⟩ coldWorld).state.redis.entries =
      [("u2", ⟨"u2", "", "a@x.com"⟩)] ∧
    ¬ (∀ (w : World) (req : proto.CreateUserRequest), req.Name = "" ∨ req.Email = "" →
        (∃ st, (server.CreateUser req w).result = .error st) ∧
        (server.CreateUser req w).calls.countP Call.isStoreWrite = 0 ∧
        (server.CreateUser req w).calls.countP Call.isCacheSet = 0) := by
  refine ⟨rfl, rfl, rfl, rfl, fun h => ?_⟩
  obtain ⟨-, h0, -⟩ := h coldWorld ⟨"", "a@x.com"⟩ (Or.inl rfl)
  have hcalls : (server.CreateUser ⟨"", "a@x.com"⟩ coldWorld).calls =
      [.dbCreate ⟨"", "a@x.com"⟩, .cacheSet ⟨"u2", "", "a@x.com"⟩] := rfl
  rw [hcalls] at h0
  simp [Call.isStoreWrite] at h0

/-- C10, amended.  `CreateUser` treats a request whose name or email is empty like any
other.  For every service, every request and every backend state:

* its first adapter call is the store insert with the request exactly as given, and
  that is its only store write;
* when the insert succeeds with record `u`, the cache write of `u` follows, the final
  state is the one that write leaves, and `u` is returned if the write succeeds
  (`Internal` if it fails);
* when the insert fails, the result is `Internal` and the state is the one the failed
  insert leaves;
* it returns an error only with code `Internal`, and only when the insert or the cache
  write failed: no request is rejected for its content. -/
theorem CreateUser_no_validation {σ : Type} (s : userService σ)
    (req : proto.CreateUserRequest) (w : σ) :
    (s.CreateUser req w).calls.head? = some (.dbCreate req) ∧
    (s.CreateUser req w).calls.countP Call.isStoreWrite = 1 ∧
    (∀ (u : proto.User) (w1 : σ), s.dbClient.CreateUser req w = (.ok u, w1) →
      (s.CreateUser req w).calls = [.dbCreate req, .cacheSet u] ∧
      (s.CreateUser req w).state = (s.redisClient.SetUser u w1).2 ∧
      ((s.redisClient.SetUser u w1).1 = none → (s.CreateUser req w).result = .ok u) ∧
      (∀ e : String, (s.redisClient.SetUser u w1).1 = some e →
        (s.CreateUser req w).result =
          .error ⟨.Internal, "error caching user in Redis: " ++ e⟩)) ∧
    (∀ (e : String) (w1 : σ), s.dbClient.CreateUser req w = (.error e, w1) →
      (s.CreateUser req w).calls = [.dbCreate req] ∧
      (s.CreateUser req w).state = w1 ∧
      (s.CreateUser req w).result = .error ⟨.Internal, "error creating user: " ++ e⟩) ∧
    (∀ st : status.Status, (s.CreateUser req w).result = .error st →
      st.code = .Internal ∧
      ((∃ e, (s.dbClient.CreateUser req w).1 = .error e) ∨
       (∃ u e, (s.dbClient.CreateUser req w).1 = .ok u ∧
          (s.redisClient.SetUser u (s.dbClient.CreateUser req w).2).1 = some e))) := by
  rcases hins : s.dbClient.CreateUser req w with ⟨ins, w1⟩
  cases ins with
  | error e =>
    have hrun : s.CreateUser req w =
        ⟨.error ⟨.Internal, "error creating user: " ++ e⟩, w1, [.dbCreate req], []⟩ := by
      simp [userService.CreateUser, hins]
    rw [hrun]
    refine ⟨rfl, by simp [Call.isStoreWrite], ?_, ?_, ?_⟩
    · intro u w2 h
      cases h
    · intro e2 w2 h
      cases h
      exact ⟨rfl, rfl, rfl⟩
    · intro st h
      cases h
      exact ⟨rfl, Or.inl ⟨e, rfl⟩⟩
  | ok u =>
    rcases hset : s.redisClient.SetUser u w1 with ⟨out, w2⟩
    cases out with
    | none =>
      have hrun : s.CreateUser req w =
          ⟨.ok u, w2, [.dbCreate req, .cacheSet u], []⟩ := by
        simp [userService.CreateUser, hins, hset]
      rw [hrun]
      refine ⟨rfl, by simp [Call.isStoreWrite], ?_, ?_, ?_⟩
      · intro u2 w3 h
        cases h
        rw [hset]
        exact ⟨rfl, rfl, fun _ => rfl, fun e2 h2 => (by cases h2)⟩
      · intro e2 w3 h
        cases h
      · intro st h
        cases h
    | some e =>
      have hrun : s.CreateUser req w =
          ⟨.error ⟨.Internal, "error caching user in Redis: " ++ e⟩, w2,
            [.dbCreate req, .cacheSet u], []⟩ := by
        simp [userService.CreateUser, hins, hset]
      rw [hrun]
      refine ⟨rfl, by simp [Call.isStoreWrite], ?_, ?_, ?_⟩
      · intro u2 w3 h
        cases h
        rw [hset]
        refine ⟨rfl, rfl, fun h2 => ?_, fun e2 h2 => ?_⟩
        · cases h2
        · cases h2
          rfl
      · intro e2 w3 h
        cases h
      · intro st h
        cases h
        exact ⟨rfl, Or.inr ⟨u, e, rfl, by rw [hset]⟩⟩

/-- Witness for the amended C10: on the healthy cold world the request with an empty
name goes through the store insert and the cache write and its record is returned. -/
theorem CreateUser_no_validation_witness :
    (server.CreateUser ⟨"", "a@x.com"⟩ coldWorld).calls =
      [.dbCreate ⟨"", "a@x.com"⟩, .cacheSet ⟨"u2", "", "a@x.com"⟩] ∧
    (server.CreateUser ⟨"", "a@x.com"⟩ coldWorld).result = .ok ⟨"u2", "", "a@x.com"⟩ ∧
    (server.CreateUser ⟨"", "a@x.com"⟩ coldWorld).state.db.users =
      [⟨"u1", "A", "a@x.com"⟩, ⟨"u2", "", "a@x.com"⟩] ∧
    (server.CreateUser ⟨"", "a@x.com"⟩ coldWorld).state.redis.entries =
      [("u2", ⟨"u2", "", "a@x.com"⟩)] :=
  have h := (CreateUser_no_validation server ⟨"", "a@x.com"⟩ coldWorld).2.2.1
    ⟨"u2", "", "a@x.com"⟩ (server.dbClient.CreateUser ⟨"", "a@x.com"⟩ coldWorld).2 rfl
  ⟨h.1, h.2.2.1 rfl, congrArg (fun x => x.db.users) h.2.1,
    congrArg (fun x => x.redis.entries) h.2.1⟩
